import Mathlib

/-!
# Shallow embedding of the MHGroveBLE controller

This file embeds `src/lib/MHGroveBLE/src/MHGroveBLE.cpp` — a small
command/response state machine driving a Seeed Grove BLE module over an
undelimited serial stream — as pure Lean functions, and proves properties
of the embedding.

Modelling conventions:
* The C++ object state (fields `internalState`, `rxBuffer`, `retryTime`,
  `timeoutTime`, `genericNextInternalState`, plus the constructor argument
  `name`) becomes the structure `BLE`.
* `millis()` is modelled by passing the current time `now : Nat` into each
  poll.  The C++ `unsigned long` millisecond timestamps are modelled as
  `Nat`; the 32-bit wraparound behaviour of the Arduino clock is modelled
  separately by the `U32`-suffixed definitions, where arithmetic is taken
  mod `2 ^ 32` as it is on the target.
* `receiveResponse` calls `millis()` a second time when rescheduling
  `retryTime`; within one poll the clock is the same `now` (a poll is
  instantaneous in the model).
* The serial device is modelled by the list `avail : List Char` of bytes
  available to drain during a poll (the `value < 0` guard in the drain
  loop is unreachable because it is dominated by `available() > 0`, so
  draining appends all of `avail`).  `device.print` is modelled by
  returning the list of commands transmitted during the poll.
* The Arduino `String` receive buffer is modelled as `List Char`.
* The C++ constructor leaves `retryTime`, `timeoutTime` and
  `genericNextInternalState` uninitialised; they are never read before
  being written (the `startup` state immediately arms
  `waitForDeviceAfterStartup`), and `mkBLE` picks `0` / `startup` for them.
-/

namespace MHGroveBLE

/-- `static const unsigned long kDefaultTimeout = 500;` -/
def kDefaultTimeout : Nat := 500

/-- `static const unsigned long kRetryTimeout = 500;` -/
def kRetryTimeout : Nat := 500

/-- `static const unsigned long kWaitForDeviceTimeout = 5000;` -/
def kWaitForDeviceTimeout : Nat := 5000

/-- `enum class MHGroveBLE::InternalState`. -/
inductive InternalState where
  | startup
  | waitForDeviceAfterStartup
  | setName
  | setRole
  | setNotification
  | reset
  | waitForDeviceAfterReset
  | panicked
  | waitingForConnection
  | connected
deriving DecidableEq, Repr

/-- `enum class MHGroveBLE::ResponseState`. -/
inductive ResponseState where
  | receiving
  | needRetry
  | timedOut
  | success
deriving DecidableEq, Repr

/-- The public `MHGroveBLE::State` enumeration returned by `getState`. -/
inductive State where
  | initializing
  | waitingForConnection
  | connected
  | panicked
deriving DecidableEq, Repr

/-- The mutable object state of an `MHGroveBLE` instance. -/
structure BLE where
  name : String
  internalState : InternalState
  rxBuffer : List Char
  retryTime : Nat
  timeoutTime : Nat
  genericNextInternalState : InternalState
deriving DecidableEq, Repr

/-- The constructor `MHGroveBLE::MHGroveBLE(device, name, rxBufferSize)`:
only `name` and `internalState` are initialised (the buffer-capacity hint
has no observable effect in the model). -/
def mkBLE (name : String) : BLE :=
  { name := name
    internalState := .startup
    rxBuffer := []
    retryTime := 0
    timeoutTime := 0
    genericNextInternalState := .startup }

/-- `MHGroveBLE::sendCommand`: transmit the command, then clear the receive
buffer.  The transmitted command is returned as the output of the poll. -/
def sendCommand (command : String) (s : BLE) : BLE × List String :=
  ({ s with rxBuffer := [] }, [command])

/-- `MHGroveBLE::receiveResponse`: drain the available bytes, then classify
against the retry deadline (`retryTime`, `0` meaning disabled) and the
absolute timeout deadline (`timeoutTime`). -/
def receiveResponse (s : BLE) (now : Nat) (avail : List Char) :
    ResponseState × BLE :=
  let timeoutReached := s.timeoutTime ≤ now
  let s1 := { s with rxBuffer := s.rxBuffer ++ avail }
  if (0 < s1.retryTime ∧ s1.retryTime ≤ now) ∨ timeoutReached then
    if 0 < s1.rxBuffer.length then
      (ResponseState.success, s1)
    else if timeoutReached then
      (ResponseState.timedOut, s1)
    else
      (ResponseState.needRetry, { s1 with retryTime := now + kRetryTimeout })
  else
    (ResponseState.receiving, s1)

/-- `MHGroveBLE::transitionToState`: arm the target state (send its command
and set its deadlines, where it has any) and make it current. -/
def transitionToState (nextState : InternalState) (now : Nat) (s : BLE) :
    BLE × List String :=
  match nextState with
  | .startup => ({ s with internalState := nextState }, [])
  | .waitForDeviceAfterStartup =>
    let (s1, out) := sendCommand "AT" s
    ({ s1 with
        retryTime := now + kRetryTimeout
        timeoutTime := now + kWaitForDeviceTimeout
        internalState := nextState }, out)
  | .setName =>
    let (s1, out) := sendCommand ("AT+NAME" ++ s.name) s
    ({ s1 with
        retryTime := 0
        timeoutTime := now + kDefaultTimeout
        genericNextInternalState := .setRole
        internalState := nextState }, out)
  | .setRole =>
    let (s1, out) := sendCommand "AT+ROLE0" s
    ({ s1 with
        retryTime := 0
        timeoutTime := now + kDefaultTimeout
        genericNextInternalState := .setNotification
        internalState := nextState }, out)
  | .setNotification =>
    let (s1, out) := sendCommand "AT+NOTI1" s
    ({ s1 with
        retryTime := 0
        timeoutTime := now + kDefaultTimeout
        genericNextInternalState := .reset
        internalState := nextState }, out)
  | .reset =>
    let (s1, out) := sendCommand "AT+RESET" s
    ({ s1 with
        retryTime := 0
        timeoutTime := now + kDefaultTimeout
        internalState := nextState }, out)
  | .waitForDeviceAfterReset =>
    let (s1, out) := sendCommand "AT" s
    ({ s1 with
        retryTime := now + kRetryTimeout
        timeoutTime := now + kWaitForDeviceTimeout
        internalState := nextState }, out)
  | .waitingForConnection => ({ s with internalState := nextState }, [])
  | .connected => ({ s with internalState := nextState }, [])
  | .panicked => ({ s with internalState := nextState }, [])

/-- `MHGroveBLE::panic`. -/
def panic (now : Nat) (s : BLE) : BLE × List String :=
  transitionToState .panicked now s

/-- `MHGroveBLE::handleWaitForDevice`. -/
def handleWaitForDevice (s : BLE) (now : Nat) (avail : List Char) :
    BLE × List String :=
  match receiveResponse s now avail with
  | (.receiving, s1) => (s1, [])
  | (.needRetry, s1) => sendCommand "AT" s1
  | (.timedOut, s1) => panic now s1
  | (.success, s1) =>
    match s1.internalState with
    | .waitForDeviceAfterStartup => transitionToState .setName now s1
    | .waitForDeviceAfterReset => transitionToState .waitingForConnection now s1
    | _ => panic now s1

/-- `MHGroveBLE::handleGenericCommand`. -/
def handleGenericCommand (s : BLE) (now : Nat) (avail : List Char) :
    BLE × List String :=
  match receiveResponse s now avail with
  | (.receiving, s1) => (s1, [])
  | (.needRetry, s1) => panic now s1
  | (.timedOut, s1) => panic now s1
  | (.success, s1) => transitionToState s1.genericNextInternalState now s1

/-- `MHGroveBLE::handleReset`: `timedOut` falls through to the `success`
handling. -/
def handleReset (s : BLE) (now : Nat) (avail : List Char) :
    BLE × List String :=
  match receiveResponse s now avail with
  | (.receiving, s1) => (s1, [])
  | (.needRetry, s1) => panic now s1
  | (.timedOut, s1) => transitionToState .waitForDeviceAfterReset now s1
  | (.success, s1) => transitionToState .waitForDeviceAfterReset now s1

/-- `MHGroveBLE::runOnce`: one poll of the controller. -/
def runOnce (s : BLE) (now : Nat) (avail : List Char) : BLE × List String :=
  match s.internalState with
  | .startup => transitionToState .waitForDeviceAfterStartup now s
  | .waitForDeviceAfterStartup => handleWaitForDevice s now avail
  | .waitForDeviceAfterReset => handleWaitForDevice s now avail
  | .setName => handleGenericCommand s now avail
  | .setRole => handleGenericCommand s now avail
  | .setNotification => handleGenericCommand s now avail
  | .reset => handleReset s now avail
  | .waitingForConnection => (s, [])
  | .connected => (s, [])
  | .panicked => (s, [])

/-- `MHGroveBLE::getState`: collapse the internal states into the public
four-state view. -/
def getState (s : BLE) : State :=
  match s.internalState with
  | .panicked => .panicked
  | .waitingForConnection => .waitingForConnection
  | .connected => .connected
  | _ => .initializing

/-- A run of the external driving loop: each element of the schedule is one
poll `(now, avail)`.  The result is the final state together with the log
of transmitted commands, each tagged with the time of the poll that sent
it. -/
def run (s : BLE) : List (Nat × List Char) → BLE × List (Nat × String)
  | [] => (s, [])
  | (now, avail) :: rest =>
    let (s1, out) := runOnce s now avail
    let (s2, outs) := run s1 rest
    (s2, out.map (fun c => (now, c)) ++ outs)

/-- A run of the Response Collector alone: iterate `receiveResponse` over a
poll schedule, collecting the classification returned by each poll. -/
def pollSeq (s : BLE) : List (Nat × List Char) → List ResponseState × BLE
  | [] => ([], s)
  | (now, avail) :: rest =>
    let (r, s1) := receiveResponse s now avail
    let (rs, s2) := pollSeq s1 rest
    (r :: rs, s2)

/-- The poll schedule of the happy-path initialization scenario: the
arming poll at `t0`, then, for each of the six commands, one delivery
poll (`p_i` carrying the transport's response bytes `b_i`) and one
decision poll at the command's 500 ms deadline. -/
def happySchedule (t0 p0 p1 p2 p3 p4 p5 : Nat)
    (b0 b1 b2 b3 b4 b5 : List Char) : List (Nat × List Char) :=
  (t0, []) ::
    ([(p0, b0), (t0 + 500, [])] ++ [(p1, b1), (t0 + 1000, [])] ++
     [(p2, b2), (t0 + 1500, [])] ++ [(p3, b3), (t0 + 2000, [])] ++
     [(p4, b4), (t0 + 2500, [])] ++ [(p5, b5), (t0 + 3000, [])])

/-! ## 32-bit clock model

On the Arduino target `unsigned long` is 32 bits wide and `millis()` wraps
every `2 ^ 32` milliseconds.  The following definitions repeat the
deadline arithmetic of the source with all timestamp values reduced mod
`2 ^ 32`, as the hardware does. -/

/-- The modulus of the target's `unsigned long` arithmetic. -/
def U32MOD : Nat := 2 ^ 32

/-- Arming a deadline on the 32-bit clock: `now + interval` as computed in
`unsigned long` arithmetic. -/
def armDeadlineU32 (now interval : Nat) : Nat := (now + interval) % U32MOD

/-- `MHGroveBLE::receiveResponse` with the timestamp arithmetic taken mod
`2 ^ 32`, exactly as the target's `unsigned long` behaves.  `now` and the
stored deadlines are values of the wrapped clock (below `U32MOD`); the
deadline checks are the source's absolute comparisons `now >= retryTime`
and `now >= timeoutTime`. -/
def receiveResponseU32 (s : BLE) (now : Nat) (avail : List Char) :
    ResponseState × BLE :=
  let timeoutReached := s.timeoutTime ≤ now
  let s1 := { s with rxBuffer := s.rxBuffer ++ avail }
  if (0 < s1.retryTime ∧ s1.retryTime ≤ now) ∨ timeoutReached then
    if 0 < s1.rxBuffer.length then
      (ResponseState.success, s1)
    else if timeoutReached then
      (ResponseState.timedOut, s1)
    else
      (ResponseState.needRetry,
        { s1 with retryTime := armDeadlineU32 now kRetryTimeout })
  else
    (ResponseState.receiving, s1)

/-! ## Basic lemmas about single polls -/

/-- Unfolding lemma: a poll of the Response Collector when the retry
deadline is disabled or not yet reached and the timeout deadline is not
yet reached returns `receiving` and only drains the buffer. -/
theorem receiveResponse_receiving (s : BLE) (now : Nat) (avail : List Char)
    (hr : s.retryTime = 0 ∨ now < s.retryTime) (ht : now < s.timeoutTime) :
    receiveResponse s now avail =
      (ResponseState.receiving, { s with rxBuffer := s.rxBuffer ++ avail }) := by
  rw [receiveResponse]
  simp only []
  rw [if_neg]
  push_neg
  exact ⟨fun h => by rcases hr with h0 | hlt <;> omega, by omega⟩

/-- Unfolding lemma: a poll at or past a fired deadline with a non-empty
drained buffer returns `success`. -/
theorem receiveResponse_success (s : BLE) (now : Nat) (avail : List Char)
    (hfired : (0 < s.retryTime ∧ s.retryTime ≤ now) ∨ s.timeoutTime ≤ now)
    (hbuf : s.rxBuffer ++ avail ≠ []) :
    receiveResponse s now avail =
      (ResponseState.success, { s with rxBuffer := s.rxBuffer ++ avail }) := by
  rw [receiveResponse]
  simp only []
  rw [if_pos hfired, if_pos]
  show 0 < (s.rxBuffer ++ avail).length
  exact List.length_pos.mpr hbuf

/-- Unfolding lemma: a poll at or past the timeout deadline with an empty
drained buffer returns `timedOut`. -/
theorem receiveResponse_timedOut (s : BLE) (now : Nat) (avail : List Char)
    (ht : s.timeoutTime ≤ now) (hbuf : s.rxBuffer ++ avail = []) :
    receiveResponse s now avail =
      (ResponseState.timedOut, { s with rxBuffer := s.rxBuffer ++ avail }) := by
  rw [receiveResponse]
  simp only []
  rw [if_pos (Or.inr ht), if_neg, if_pos ht]
  simp [hbuf]

/-- Unfolding lemma: a poll past a set retry deadline but before the
timeout deadline with an empty drained buffer returns `needRetry` and
reschedules the retry deadline. -/
theorem receiveResponse_needRetry (s : BLE) (now : Nat) (avail : List Char)
    (hr : 0 < s.retryTime) (hrle : s.retryTime ≤ now) (ht : now < s.timeoutTime)
    (hbuf : s.rxBuffer ++ avail = []) :
    receiveResponse s now avail =
      (ResponseState.needRetry,
        { s with rxBuffer := s.rxBuffer ++ avail,
                 retryTime := now + kRetryTimeout }) := by
  rw [receiveResponse]
  simp only []
  rw [if_pos (Or.inl ⟨hr, hrle⟩), if_neg, if_neg (by omega)]
  simp [hbuf]

/-- A poll of a panicked controller is a strict no-op. -/
theorem runOnce_panicked (s : BLE) (now : Nat) (avail : List Char)
    (h : s.internalState = .panicked) : runOnce s now avail = (s, []) := by
  rcases s with ⟨n, ist, buf, rt, tt, gn⟩
  simp only at h
  subst h
  rfl

/-- A whole run of a panicked controller is a strict no-op. -/
theorem run_panicked (s : BLE) (h : s.internalState = .panicked) :
    ∀ polls : List (Nat × List Char), run s polls = (s, []) := by
  intro polls
  induction polls with
  | nil => rfl
  | cons p rest ih =>
    obtain ⟨now, avail⟩ := p
    simp [run, runOnce_panicked s now avail h, ih]

/-- C1: for every poll of the Response Collector with current time `now`,
after draining all available bytes into the buffer: if (a retry deadline is
set and `now ≥` retry deadline) or `now ≥` timeout deadline, then the
result is `success` when the buffer is non-empty, `timedOut` when the
buffer is empty and the timeout deadline was reached, and otherwise
`needRetry` with the retry deadline rescheduled to `now + kRetryTimeout`;
if neither deadline was reached, the result is `receiving` and no state
other than the drained buffer is changed. -/
theorem claim_C1_response_collector_classification
    (s : BLE) (now : Nat) (avail : List Char) :
    (((0 < s.retryTime ∧ s.retryTime ≤ now) ∨ s.timeoutTime ≤ now) →
      (s.rxBuffer ++ avail ≠ [] →
        receiveResponse s now avail =
          (ResponseState.success, { s with rxBuffer := s.rxBuffer ++ avail })) ∧
      (s.rxBuffer ++ avail = [] → s.timeoutTime ≤ now →
        receiveResponse s now avail =
          (ResponseState.timedOut, { s with rxBuffer := s.rxBuffer ++ avail })) ∧
      (s.rxBuffer ++ avail = [] → now < s.timeoutTime →
        receiveResponse s now avail =
          (ResponseState.needRetry,
            { s with rxBuffer := s.rxBuffer ++ avail,
                     retryTime := now + kRetryTimeout }))) ∧
    (¬ ((0 < s.retryTime ∧ s.retryTime ≤ now) ∨ s.timeoutTime ≤ now) →
      receiveResponse s now avail =
        (ResponseState.receiving, { s with rxBuffer := s.rxBuffer ++ avail })) := by
  constructor
  · intro hfired
    refine ⟨fun hbuf => receiveResponse_success s now avail hfired hbuf,
      fun hbuf ht => receiveResponse_timedOut s now avail ht hbuf,
      fun hbuf ht => ?_⟩
    have hr : 0 < s.retryTime ∧ s.retryTime ≤ now := by
      rcases hfired with h | h
      · exact h
      · omega
    exact receiveResponse_needRetry s now avail hr.1 hr.2 ht hbuf
  · intro hnot
    push_neg at hnot
    refine receiveResponse_receiving s now avail ?_ hnot.2
    rcases Nat.eq_zero_or_pos s.retryTime with h0 | hpos
    · exact Or.inl h0
    · exact Or.inr (by have := hnot.1 hpos; omega)

/-- Witness for C1: each of the four classifications realised at a
concrete input. -/
theorem claim_C1_response_collector_classification_witness :
    (receiveResponse { mkBLE "BLE1" with timeoutTime := 500 } 500 ['O', 'K'] =
      (ResponseState.success,
        { mkBLE "BLE1" with timeoutTime := 500, rxBuffer := ['O', 'K'] })) ∧
    (receiveResponse { mkBLE "BLE1" with timeoutTime := 500 } 500 [] =
      (ResponseState.timedOut, { mkBLE "BLE1" with timeoutTime := 500 })) ∧
    (receiveResponse
        { mkBLE "BLE1" with retryTime := 500, timeoutTime := 5000 } 500 [] =
      (ResponseState.needRetry,
        { mkBLE "BLE1" with retryTime := 1000, timeoutTime := 5000 })) ∧
    (receiveResponse
        { mkBLE "BLE1" with retryTime := 500, timeoutTime := 5000 } 100 [] =
      (ResponseState.receiving,
        { mkBLE "BLE1" with retryTime := 500, timeoutTime := 5000 })) := by
  refine ⟨?_, ?_, ?_, ?_⟩
  · exact (claim_C1_response_collector_classification
      { mkBLE "BLE1" with timeoutTime := 500 } 500 ['O', 'K']).1
      (by decide) |>.1 (by decide)
  · exact (claim_C1_response_collector_classification
      { mkBLE "BLE1" with timeoutTime := 500 } 500 []).1
      (by decide) |>.2.1 (by decide) (by decide)
  · exact (claim_C1_response_collector_classification
      { mkBLE "BLE1" with retryTime := 500, timeoutTime := 5000 } 500 []).1
      (by decide) |>.2.2 (by decide) (by decide)
  · exact (claim_C1_response_collector_classification
      { mkBLE "BLE1" with retryTime := 500, timeoutTime := 5000 } 100 []).2
      (by decide)

/-- C5: once the controller is panicked, every subsequent poll transmits
no bytes, leaves the retry and timeout deadlines unchanged, performs no
state transition, and `getState` returns `panicked` forever. -/
theorem claim_C5_panicked_is_sink (s : BLE) (h : s.internalState = .panicked)
    (polls : List (Nat × List Char)) :
    run s polls = (s, []) ∧ getState (run s polls).1 = State.panicked := by
  refine ⟨run_panicked s h polls, ?_⟩
  rw [run_panicked s h polls]
  rcases s with ⟨n, ist, buf, rt, tt, gn⟩
  simp only at h
  subst h
  rfl

/-- Witness for C5: a concrete panicked controller polled three times. -/
theorem claim_C5_panicked_is_sink_witness :
    run { mkBLE "BLE1" with
          internalState := .panicked
          retryTime := 7
          timeoutTime := 9 } [(100, ['O']), (600, []), (5000, ['K'])] =
      ({ mkBLE "BLE1" with
         internalState := .panicked
         retryTime := 7
         timeoutTime := 9 }, []) ∧
    getState (run { mkBLE "BLE1" with
          internalState := .panicked
          retryTime := 7
          timeoutTime := 9 }
        [(100, ['O']), (600, []), (5000, ['K'])]).1 = State.panicked :=
  claim_C5_panicked_is_sink
    { mkBLE "BLE1" with
      internalState := .panicked
      retryTime := 7
      timeoutTime := 9 } rfl [(100, ['O']), (600, []), (5000, ['K'])]

/-- C10: transitions into the non-command states modify only the internal
state field and transmit nothing, and polls in `waitingForConnection`,
`connected` and `panicked` are strict no-ops, so the stale deadlines of the
previous command persist unconsulted. -/
theorem claim_C10_noncommand_states_frame :
    (∀ (s : BLE) (now : Nat),
      transitionToState .startup now s =
        ({ s with internalState := .startup }, []) ∧
      transitionToState .waitingForConnection now s =
        ({ s with internalState := .waitingForConnection }, []) ∧
      transitionToState .connected now s =
        ({ s with internalState := .connected }, []) ∧
      transitionToState .panicked now s =
        ({ s with internalState := .panicked }, [])) ∧
    (∀ (s : BLE) (now : Nat) (avail : List Char),
      (s.internalState = .waitingForConnection →
        runOnce s now avail = (s, [])) ∧
      (s.internalState = .connected → runOnce s now avail = (s, [])) ∧
      (s.internalState = .panicked → runOnce s now avail = (s, []))) := by
  constructor
  · exact fun s now => ⟨rfl, rfl, rfl, rfl⟩
  · intro s now avail
    refine ⟨fun h => ?_, fun h => ?_, fun h => ?_⟩ <;>
      (rcases s with ⟨n, ist, buf, rt, tt, gn⟩; simp only at h; subst h; rfl)

/-- Witness for C10: the no-op polls realised on concrete states. -/
theorem claim_C10_noncommand_states_frame_witness :
    runOnce { mkBLE "BLE1" with internalState := .waitingForConnection }
        123 ['O'] =
      ({ mkBLE "BLE1" with internalState := .waitingForConnection }, []) ∧
    runOnce { mkBLE "BLE1" with internalState := .connected } 456 [] =
      ({ mkBLE "BLE1" with internalState := .connected }, []) ∧
    runOnce { mkBLE "BLE1" with internalState := .panicked } 789 ['K'] =
      ({ mkBLE "BLE1" with internalState := .panicked }, []) :=
  ⟨(claim_C10_noncommand_states_frame.2
      { mkBLE "BLE1" with internalState := .waitingForConnection }
      123 ['O']).1 rfl,
   (claim_C10_noncommand_states_frame.2
      { mkBLE "BLE1" with internalState := .connected } 456 []).2.1 rfl,
   (claim_C10_noncommand_states_frame.2
      { mkBLE "BLE1" with internalState := .panicked } 789 ['K']).2.2 rfl⟩

/-- C3: in the `reset` state a `timedOut` classification is handled
identically to `success`: whether the drained buffer is empty (the command
timed out with no response byte) or non-empty, the controller transitions
to `waitForDeviceAfterReset` — not to `panicked` — and arms it. -/
theorem claim_C3_reset_timeout_treated_as_success (s : BLE) (now : Nat)
    (hst : s.internalState = .reset) (ht : s.timeoutTime ≤ now) :
    ∀ avail : List Char,
      runOnce s now avail =
        ({ s with rxBuffer := [],
                  retryTime := now + kRetryTimeout,
                  timeoutTime := now + kWaitForDeviceTimeout,
                  internalState := .waitForDeviceAfterReset }, ["AT"]) := by
  intro avail
  rcases s with ⟨n, ist, buf, rt, tt, gn⟩
  simp only at hst ht
  subst hst
  show handleReset ⟨n, .reset, buf, rt, tt, gn⟩ now avail = _
  by_cases hbuf : buf ++ avail = []
  · rw [handleReset, receiveResponse_timedOut _ now avail ht hbuf]
    simp [transitionToState, sendCommand]
  · rw [handleReset, receiveResponse_success _ now avail (Or.inr ht) hbuf]
    simp [transitionToState, sendCommand]

/-- Witness for C3: the `AT+RESET` command armed at time 0 times out at
its 500 ms deadline with no byte ever received, and the controller still
advances to `waitForDeviceAfterReset`. -/
theorem claim_C3_reset_timeout_treated_as_success_witness :
    runOnce { mkBLE "BLE1" with internalState := .reset, timeoutTime := 500 }
        500 [] =
      ({ mkBLE "BLE1" with
         internalState := .waitForDeviceAfterReset
         retryTime := 1000
         timeoutTime := 5500 }, ["AT"]) :=
  claim_C3_reset_timeout_treated_as_success
    { mkBLE "BLE1" with internalState := .reset, timeoutTime := 500 }
    500 rfl (by decide) []

/-- Exhaustive case analysis of one Response Collector poll: the buffer is
always drained, the deadlines are untouched except that a `needRetry`
outcome (which requires a set retry deadline) reschedules it. -/
theorem receiveResponse_cases (s : BLE) (now : Nat) (avail : List Char) :
    receiveResponse s now avail =
      (ResponseState.receiving, { s with rxBuffer := s.rxBuffer ++ avail }) ∨
    receiveResponse s now avail =
      (ResponseState.success, { s with rxBuffer := s.rxBuffer ++ avail }) ∨
    receiveResponse s now avail =
      (ResponseState.timedOut, { s with rxBuffer := s.rxBuffer ++ avail }) ∨
    (0 < s.retryTime ∧
      receiveResponse s now avail =
        (ResponseState.needRetry,
          { s with rxBuffer := s.rxBuffer ++ avail
                   retryTime := now + kRetryTimeout })) := by
  rcases s with ⟨n, ist, buf, rt, tt, gn⟩
  rw [receiveResponse]
  simp only []
  split_ifs with h1 h2 h3
  · right; left; rfl
  · right; right; left; rfl
  · right; right; right
    refine ⟨?_, rfl⟩
    simp only at h1 h3
    rcases h1 with ⟨hpos, _⟩ | htime
    · exact hpos
    · exact absurd htime h3
  · left; rfl

/-- When the retry deadline is disabled, one Response Collector poll can
never return `needRetry`, and it leaves the retry deadline disabled. -/
theorem receiveResponse_retry_disabled (s : BLE) (now : Nat)
    (avail : List Char) (h : s.retryTime = 0) :
    (receiveResponse s now avail).1 ≠ ResponseState.needRetry ∧
    (receiveResponse s now avail).2.retryTime = 0 := by
  rcases receiveResponse_cases s now avail with hc | hc | hc | ⟨hpos, _⟩
  · rw [hc]; exact ⟨by simp, by simp [h]⟩
  · rw [hc]; exact ⟨by simp, by simp [h]⟩
  · rw [hc]; exact ⟨by simp, by simp [h]⟩
  · omega

/-- C4: with the retry deadline disabled (cleared to `0`, as every
command-sending generic state arms it), no sequence of Response Collector
polls can ever return `needRetry`; and if a `needRetry` outcome is
nevertheless observed in one of the no-retry states
(`setName`/`setRole`/`setNotification`/`reset`), the controller enters
`panicked` rather than ignoring it. -/
theorem claim_C4_needRetry_impossible_and_fatal :
    (∀ (s : BLE), s.retryTime = 0 → ∀ polls : List (Nat × List Char),
      ResponseState.needRetry ∉ (pollSeq s polls).1) ∧
    (∀ (s : BLE) (now : Nat) (avail : List Char),
      (s.internalState = .setName ∨ s.internalState = .setRole ∨
       s.internalState = .setNotification ∨ s.internalState = .reset) →
      (receiveResponse s now avail).1 = ResponseState.needRetry →
      (runOnce s now avail).1.internalState = .panicked) := by
  constructor
  · intro s h polls
    induction polls generalizing s with
    | nil => simp [pollSeq]
    | cons p rest ih =>
      obtain ⟨now, avail⟩ := p
      have hh := receiveResponse_retry_disabled s now avail h
      simp only [pollSeq]
      rcases hp : receiveResponse s now avail with ⟨r, s1⟩
      rw [hp] at hh
      simp only at hh
      simp only [List.mem_cons, not_or]
      exact ⟨fun hr => hh.1 (hr ▸ rfl), by
        have := ih s1 hh.2
        rcases hq : pollSeq s1 rest with ⟨rs, s2⟩
        rw [hq] at this
        simpa using this⟩
  · intro s now avail hst hnr
    rcases hp : receiveResponse s now avail with ⟨r, s1⟩
    rw [hp] at hnr
    simp only at hnr
    subst hnr
    rcases s with ⟨n, ist, buf, rt, tt, gn⟩
    rcases hst with h | h | h | h <;> (simp only at h; subst h) <;>
      simp [runOnce, handleGenericCommand, handleReset, hp, panic,
        transitionToState]

/-- Witness for C4: a disabled retry deadline yields no `needRetry` over a
concrete poll sequence, and a `needRetry` observed in `setName` (forced
here by a stale set retry deadline) panics the controller. -/
theorem claim_C4_needRetry_impossible_and_fatal_witness :
    (ResponseState.needRetry ∉
      (pollSeq { mkBLE "BLE1" with timeoutTime := 500 }
        [(100, []), (250, ['O']), (600, [])]).1) ∧
    (runOnce { mkBLE "BLE1" with
        internalState := .setName
        retryTime := 300
        timeoutTime := 5000 } 400 []).1.internalState = .panicked :=
  ⟨claim_C4_needRetry_impossible_and_fatal.1
      { mkBLE "BLE1" with timeoutTime := 500 } rfl
      [(100, []), (250, ['O']), (600, [])],
   claim_C4_needRetry_impossible_and_fatal.2
      { mkBLE "BLE1" with
        internalState := .setName
        retryTime := 300
        timeoutTime := 5000 } 400 [] (Or.inl rfl) (by decide)⟩

/-- Frame lemma: a poll that transmits nothing leaves both deadlines
unchanged and at most appends the drained bytes to the receive buffer.
The hypothesis is the arming invariant of the generic command states
(their retry deadline is disabled), which every reachable state
satisfies. -/
theorem runOnce_no_transmit_frame (s : BLE) (now : Nat) (avail : List Char)
    (hinv : (s.internalState = .setName ∨ s.internalState = .setRole ∨
             s.internalState = .setNotification ∨ s.internalState = .reset) →
            s.retryTime = 0)
    (hout : (runOnce s now avail).2 = []) :
    (runOnce s now avail).1.retryTime = s.retryTime ∧
    (runOnce s now avail).1.timeoutTime = s.timeoutTime ∧
    ((runOnce s now avail).1.rxBuffer = s.rxBuffer ∨
     (runOnce s now avail).1.rxBuffer = s.rxBuffer ++ avail) := by
  rcases s with ⟨n, ist, buf, rt, tt, gn⟩
  cases ist
  case startup => simp [runOnce, transitionToState, sendCommand] at hout
  case waitingForConnection => simp [runOnce]
  case connected => simp [runOnce]
  case panicked => simp [runOnce]
  case waitForDeviceAfterStartup =>
    rcases receiveResponse_cases ⟨n, .waitForDeviceAfterStartup, buf, rt, tt, gn⟩
        now avail with hc | hc | hc | ⟨hpos, hc⟩ <;>
      simp [runOnce, handleWaitForDevice, hc, panic, transitionToState,
        sendCommand] at hout ⊢
  case waitForDeviceAfterReset =>
    rcases receiveResponse_cases ⟨n, .waitForDeviceAfterReset, buf, rt, tt, gn⟩
        now avail with hc | hc | hc | ⟨hpos, hc⟩ <;>
      simp [runOnce, handleWaitForDevice, hc, panic, transitionToState,
        sendCommand] at hout ⊢
  case setName =>
    have hrt : rt = 0 := hinv (Or.inl rfl)
    rcases receiveResponse_cases ⟨n, .setName, buf, rt, tt, gn⟩
        now avail with hc | hc | hc | ⟨hpos, hc⟩
    · simp [runOnce, handleGenericCommand, hc]
    · cases gn <;>
        simp [runOnce, handleGenericCommand, hc, transitionToState,
          sendCommand] at hout ⊢
    · simp [runOnce, handleGenericCommand, hc, panic, transitionToState]
    · simp only at hpos; omega
  case setRole =>
    have hrt : rt = 0 := hinv (Or.inr (Or.inl rfl))
    rcases receiveResponse_cases ⟨n, .setRole, buf, rt, tt, gn⟩
        now avail with hc | hc | hc | ⟨hpos, hc⟩
    · simp [runOnce, handleGenericCommand, hc]
    · cases gn <;>
        simp [runOnce, handleGenericCommand, hc, transitionToState,
          sendCommand] at hout ⊢
    · simp [runOnce, handleGenericCommand, hc, panic, transitionToState]
    · simp only at hpos; omega
  case setNotification =>
    have hrt : rt = 0 := hinv (Or.inr (Or.inr (Or.inl rfl)))
    rcases receiveResponse_cases ⟨n, .setNotification, buf, rt, tt, gn⟩
        now avail with hc | hc | hc | ⟨hpos, hc⟩
    · simp [runOnce, handleGenericCommand, hc]
    · cases gn <;>
        simp [runOnce, handleGenericCommand, hc, transitionToState,
          sendCommand] at hout ⊢
    · simp [runOnce, handleGenericCommand, hc, panic, transitionToState]
    · simp only at hpos; omega
  case reset =>
    have hrt : rt = 0 := hinv (Or.inr (Or.inr (Or.inr rfl)))
    rcases receiveResponse_cases ⟨n, .reset, buf, rt, tt, gn⟩
        now avail with hc | hc | hc | ⟨hpos, hc⟩
    · simp [runOnce, handleReset, hc]
    · simp [runOnce, handleReset, hc, transitionToState, sendCommand] at hout
    · simp [runOnce, handleReset, hc, transitionToState, sendCommand] at hout
    · simp only at hpos; omega

/-- Frame lemma: a poll that transmits a command leaves the receive buffer
cleared (the transmission is the last thing that touches it). -/
theorem runOnce_transmit_clears (s : BLE) (now : Nat) (avail : List Char)
    (hout : (runOnce s now avail).2 ≠ []) :
    (runOnce s now avail).1.rxBuffer = [] := by
  rcases s with ⟨n, ist, buf, rt, tt, gn⟩
  cases ist
  case startup => simp [runOnce, transitionToState, sendCommand]
  case waitingForConnection => simp [runOnce] at hout
  case connected => simp [runOnce] at hout
  case panicked => simp [runOnce] at hout
  case waitForDeviceAfterStartup =>
    rcases receiveResponse_cases ⟨n, .waitForDeviceAfterStartup, buf, rt, tt, gn⟩
        now avail with hc | hc | hc | ⟨hpos, hc⟩ <;>
      simp [runOnce, handleWaitForDevice, hc, panic, transitionToState,
        sendCommand] at hout ⊢
  case waitForDeviceAfterReset =>
    rcases receiveResponse_cases ⟨n, .waitForDeviceAfterReset, buf, rt, tt, gn⟩
        now avail with hc | hc | hc | ⟨hpos, hc⟩ <;>
      simp [runOnce, handleWaitForDevice, hc, panic, transitionToState,
        sendCommand] at hout ⊢
  case setName =>
    rcases receiveResponse_cases ⟨n, .setName, buf, rt, tt, gn⟩
        now avail with hc | hc | hc | ⟨hpos, hc⟩ <;>
      [skip; (cases gn); skip; skip] <;>
      simp [runOnce, handleGenericCommand, hc, panic, transitionToState,
        sendCommand] at hout ⊢
  case setRole =>
    rcases receiveResponse_cases ⟨n, .setRole, buf, rt, tt, gn⟩
        now avail with hc | hc | hc | ⟨hpos, hc⟩ <;>
      [skip; (cases gn); skip; skip] <;>
      simp [runOnce, handleGenericCommand, hc, panic, transitionToState,
        sendCommand] at hout ⊢
  case setNotification =>
    rcases receiveResponse_cases ⟨n, .setNotification, buf, rt, tt, gn⟩
        now avail with hc | hc | hc | ⟨hpos, hc⟩ <;>
      [skip; (cases gn); skip; skip] <;>
      simp [runOnce, handleGenericCommand, hc, panic, transitionToState,
        sendCommand] at hout ⊢
  case reset =>
    rcases receiveResponse_cases ⟨n, .reset, buf, rt, tt, gn⟩
        now avail with hc | hc | hc | ⟨hpos, hc⟩ <;>
      simp [runOnce, handleReset, hc, panic, transitionToState,
        sendCommand] at hout ⊢

/-- C9: entering any command-sending state clears the receive buffer,
transmits the state's command, sets the timeout deadline to `now +` the
state's timeout, and sets the retry deadline to `now + kRetryTimeout` for
the retry-enabled wait states and clears it (to `0`) otherwise — the
ordering of the source (transmit, then buffer clear, then deadlines from
the same `now`) is captured by the resulting field values.  Moreover,
under the arming invariant that the generic command states carry a
disabled retry deadline, the buffer and the deadlines are reset exactly
when a command is transmitted: a poll transmitting nothing leaves both
deadlines unchanged and at most appends to the buffer, and a poll
transmitting a command leaves the buffer cleared. -/
theorem claim_C9_arming_and_clearing_contract :
    (∀ (s : BLE) (now : Nat),
      transitionToState .waitForDeviceAfterStartup now s =
        ({ s with
           rxBuffer := []
           retryTime := now + kRetryTimeout
           timeoutTime := now + kWaitForDeviceTimeout
           internalState := .waitForDeviceAfterStartup }, ["AT"]) ∧
      transitionToState .setName now s =
        ({ s with
           rxBuffer := []
           retryTime := 0
           timeoutTime := now + kDefaultTimeout
           genericNextInternalState := .setRole
           internalState := .setName }, ["AT+NAME" ++ s.name]) ∧
      transitionToState .setRole now s =
        ({ s with
           rxBuffer := []
           retryTime := 0
           timeoutTime := now + kDefaultTimeout
           genericNextInternalState := .setNotification
           internalState := .setRole }, ["AT+ROLE0"]) ∧
      transitionToState .setNotification now s =
        ({ s with
           rxBuffer := []
           retryTime := 0
           timeoutTime := now + kDefaultTimeout
           genericNextInternalState := .reset
           internalState := .setNotification }, ["AT+NOTI1"]) ∧
      transitionToState .reset now s =
        ({ s with
           rxBuffer := []
           retryTime := 0
           timeoutTime := now + kDefaultTimeout
           internalState := .reset }, ["AT+RESET"]) ∧
      transitionToState .waitForDeviceAfterReset now s =
        ({ s with
           rxBuffer := []
           retryTime := now + kRetryTimeout
           timeoutTime := now + kWaitForDeviceTimeout
           internalState := .waitForDeviceAfterReset }, ["AT"])) ∧
    (∀ (s : BLE) (now : Nat) (avail : List Char),
      ((s.internalState = .setName ∨ s.internalState = .setRole ∨
        s.internalState = .setNotification ∨ s.internalState = .reset) →
       s.retryTime = 0) →
      ((runOnce s now avail).2 = [] →
        (runOnce s now avail).1.retryTime = s.retryTime ∧
        (runOnce s now avail).1.timeoutTime = s.timeoutTime ∧
        ((runOnce s now avail).1.rxBuffer = s.rxBuffer ∨
         (runOnce s now avail).1.rxBuffer = s.rxBuffer ++ avail)) ∧
      ((runOnce s now avail).2 ≠ [] →
        (runOnce s now avail).1.rxBuffer = [])) := by
  refine ⟨fun s now => ⟨rfl, rfl, rfl, rfl, rfl, rfl⟩,
    fun s now avail hinv =>
      ⟨runOnce_no_transmit_frame s now avail hinv,
       runOnce_transmit_clears s now avail⟩⟩

/-- Witness for C9: the arming equalities and both clearing directions at
concrete inputs — a `receiving` poll that transmits nothing, and the
startup arming poll that transmits `AT`. -/
theorem claim_C9_arming_and_clearing_contract_witness :
    transitionToState .setName 700 { mkBLE "BLE1" with rxBuffer := ['O'] } =
      ({ mkBLE "BLE1" with
         rxBuffer := []
         retryTime := 0
         timeoutTime := 1200
         genericNextInternalState := .setRole
         internalState := .setName }, ["AT+NAMEBLE1"]) ∧
    ((runOnce { mkBLE "BLE1" with
        internalState := .setName
        timeoutTime := 500 } 100 ['O']).1.retryTime = 0 ∧
      (runOnce { mkBLE "BLE1" with
        internalState := .setName
        timeoutTime := 500 } 100 ['O']).1.timeoutTime = 500 ∧
      ((runOnce { mkBLE "BLE1" with
          internalState := .setName
          timeoutTime := 500 } 100 ['O']).1.rxBuffer = [] ∨
       (runOnce { mkBLE "BLE1" with
          internalState := .setName
          timeoutTime := 500 } 100 ['O']).1.rxBuffer = [] ++ ['O'])) ∧
    (runOnce (mkBLE "BLE1") 0 []).1.rxBuffer = [] := by
  refine ⟨?_, ?_, ?_⟩
  · have h := (claim_C9_arming_and_clearing_contract.1
      { mkBLE "BLE1" with rxBuffer := ['O'] } 700).2.1
    simpa using h
  · exact ((claim_C9_arming_and_clearing_contract.2
      { mkBLE "BLE1" with
        internalState := .setName
        timeoutTime := 500 } 100 ['O'])
      (fun _ => rfl)).1 (by decide)
  · exact ((claim_C9_arming_and_clearing_contract.2
      (mkBLE "BLE1") 0 []) (fun _ => rfl)).2
      (by decide)

/-- C8 fails on the code: the Response Collector compares absolute wrapped
timestamps (`now >= timeoutTime`), not differences.  Arm the `reset`
command's 500 ms timeout 100 ms before the 32-bit millisecond clock wraps:
the stored deadline wraps to `400`, and a poll only 50 ms later (clock
value `2^32 - 50`) is misclassified as `timedOut` although just 50 ms of
the 500 ms window have elapsed.  The same poll in the unwrapped-clock
model is still `receiving`. -/
theorem claim_C8_absolute_comparison_breaks_on_wrap :
    armDeadlineU32 (U32MOD - 100) kDefaultTimeout = 400 ∧
    (U32MOD - 50) - (U32MOD - 100) < kDefaultTimeout ∧
    (receiveResponseU32 { mkBLE "BLE1" with
        internalState := .reset
        timeoutTime := armDeadlineU32 (U32MOD - 100) kDefaultTimeout }
      (U32MOD - 50) []).1 = ResponseState.timedOut ∧
    (receiveResponse { mkBLE "BLE1" with
        internalState := .reset
        timeoutTime := (U32MOD - 100) + kDefaultTimeout }
      (U32MOD - 50) []).1 = ResponseState.receiving := by
  refine ⟨by decide, by decide, ?_, ?_⟩ <;> decide

/-- A silent poll of an armed wait-for-device state before the timeout
deadline: a strict no-op while the retry deadline has not fired, and a
retransmission of `AT` (rescheduling the retry deadline only) once it
has. -/
theorem runOnce_wait_silent (s : BLE) (now : Nat)
    (hst : s.internalState = .waitForDeviceAfterStartup ∨
           s.internalState = .waitForDeviceAfterReset)
    (hbuf : s.rxBuffer = []) (hrt : 0 < s.retryTime)
    (ht : now < s.timeoutTime) :
    (now < s.retryTime → runOnce s now [] = (s, [])) ∧
    (s.retryTime ≤ now →
      runOnce s now [] =
        ({ s with retryTime := now + kRetryTimeout }, ["AT"])) := by
  rcases s with ⟨n, ist, buf, rt, tt, gn⟩
  simp only at hst hbuf hrt ht
  subst hbuf
  constructor
  · intro hlt
    rcases hst with h | h <;> subst h <;>
      simp [runOnce, handleWaitForDevice,
        receiveResponse_receiving _ now [] (Or.inr hlt) ht]
  · intro hle
    rcases hst with h | h <;> subst h <;>
      simp [runOnce, handleWaitForDevice,
        receiveResponse_needRetry _ now [] hrt hle ht rfl, sendCommand]

/-- A silent poll of an armed wait-for-device state at or past the timeout
deadline panics the controller. -/
theorem runOnce_wait_silent_timeout (s : BLE) (now : Nat)
    (hst : s.internalState = .waitForDeviceAfterStartup ∨
           s.internalState = .waitForDeviceAfterReset)
    (hbuf : s.rxBuffer = []) (ht : s.timeoutTime ≤ now) :
    runOnce s now [] = ({ s with internalState := .panicked }, []) := by
  rcases s with ⟨n, ist, buf, rt, tt, gn⟩
  simp only at hst hbuf ht
  subst hbuf
  rcases hst with h | h <;> subst h
  · simp [runOnce, handleWaitForDevice, panic, transitionToState,
      receiveResponse_timedOut
        ⟨n, .waitForDeviceAfterStartup, [], rt, tt, gn⟩ now [] ht rfl]
  · simp [runOnce, handleWaitForDevice, panic, transitionToState,
      receiveResponse_timedOut
        ⟨n, .waitForDeviceAfterReset, [], rt, tt, gn⟩ now [] ht rfl]

/-- A run of silent polls all strictly before the timeout deadline keeps
an armed wait-for-device state in place: the state, the empty buffer and
the timeout deadline are preserved and the retry deadline stays set. -/
theorem run_wait_silent_invariant (polls : List (Nat × List Char)) :
    ∀ s : BLE,
      (∀ p ∈ polls, p.1 < s.timeoutTime ∧ p.2 = ([] : List Char)) →
      (s.internalState = .waitForDeviceAfterStartup ∨
       s.internalState = .waitForDeviceAfterReset) →
      s.rxBuffer = [] → 0 < s.retryTime →
      (run s polls).1.internalState = s.internalState ∧
      (run s polls).1.rxBuffer = [] ∧
      0 < (run s polls).1.retryTime ∧
      (run s polls).1.timeoutTime = s.timeoutTime := by
  induction polls with
  | nil => exact fun s _ _ hbuf hrt => ⟨rfl, hbuf, hrt, rfl⟩
  | cons p rest ih =>
    intro s hp hst hbuf hrt
    obtain ⟨now, avail⟩ := p
    have hnow := hp (now, avail) (List.mem_cons_self _ _)
    simp only at hnow
    obtain ⟨hlt, havail⟩ := hnow
    subst havail
    have hrest : ∀ q ∈ rest, q.1 < s.timeoutTime ∧ q.2 = ([] : List Char) :=
      fun q hq => hp q (List.mem_cons_of_mem _ hq)
    rcases Nat.lt_or_ge now s.retryTime with hr | hr
    · have h1 := (runOnce_wait_silent s now hst hbuf hrt hlt).1 hr
      have := ih s hrest hst hbuf hrt
      simp only [run, h1]
      simpa using this
    · have h1 := (runOnce_wait_silent s now hst hbuf hrt hlt).2 hr
      have := ih { s with retryTime := now + kRetryTimeout }
        (by simpa using hrest) (by simpa using hst) (by simpa using hbuf)
        (by simp; omega)
      simp only [run, h1]
      simpa [hst] using this

/-- Runs compose over concatenated poll schedules. -/
theorem run_append (l1 l2 : List (Nat × List Char)) :
    ∀ s : BLE,
      run s (l1 ++ l2) =
        ((run (run s l1).1 l2).1,
          (run s l1).2 ++ (run (run s l1).1 l2).2) := by
  induction l1 with
  | nil => intro s; simp [run]
  | cons p rest ih =>
    intro s
    obtain ⟨now, avail⟩ := p
    rcases h1 : runOnce s now avail with ⟨s1, out⟩
    simp [run, h1, ih s1]

/-- The public state is `panicked` exactly when the internal state is. -/
theorem getState_panicked_iff (s : BLE) :
    getState s = State.panicked ↔ s.internalState = .panicked := by
  rcases s with ⟨n, ist, buf, rt, tt, gn⟩
  cases ist <;> simp [getState]

/-- C7: with a transport that never delivers a byte, a freshly constructed
controller (armed by its first poll at `t0`) is never panicked at any poll
strictly before the `waitForDeviceAfterStartup` timeout `t0 + 5000`, and
the first poll at or after that deadline — one poll tick past the timeout
— leaves the observable state `panicked`. -/
theorem claim_C7_silent_transport_panics_at_timeout (name : String)
    (t0 T : Nat) (polls : List (Nat × List Char))
    (hmid : ∀ p ∈ polls,
      p.1 < t0 + kWaitForDeviceTimeout ∧ p.2 = ([] : List Char))
    (hT : t0 + kWaitForDeviceTimeout ≤ T) :
    (∀ pre suf, polls = pre ++ suf →
      getState (run (mkBLE name) ((t0, ([] : List Char)) :: pre)).1 ≠
        State.panicked) ∧
    getState
      (run (mkBLE name)
        (((t0, ([] : List Char)) :: polls) ++ [(T, [])])).1 =
      State.panicked := by
  have harm : runOnce (mkBLE name) t0 [] =
      (⟨name, .waitForDeviceAfterStartup, [], t0 + kRetryTimeout,
        t0 + kWaitForDeviceTimeout, .startup⟩, ["AT"]) := rfl
  set s1 : BLE := ⟨name, .waitForDeviceAfterStartup, [], t0 + kRetryTimeout,
    t0 + kWaitForDeviceTimeout, .startup⟩ with hs1
  constructor
  · intro pre suf heq
    have hpre : ∀ p ∈ pre,
        p.1 < s1.timeoutTime ∧ p.2 = ([] : List Char) := by
      intro p hp
      rw [hs1]
      exact hmid p (by rw [heq]; exact List.mem_append_left suf hp)
    have hinv := run_wait_silent_invariant pre s1 hpre (Or.inl rfl) rfl
      (by rw [hs1]; show 0 < t0 + 500; omega)
    intro hcontra
    rw [getState_panicked_iff] at hcontra
    simp only [run, harm] at hcontra
    rw [hinv.1, hs1] at hcontra
    simp at hcontra
  · have hpolls : ∀ p ∈ polls,
        p.1 < s1.timeoutTime ∧ p.2 = ([] : List Char) := by
      intro p hp
      rw [hs1]
      exact hmid p hp
    have hinv := run_wait_silent_invariant polls s1 hpolls (Or.inl rfl) rfl
      (by rw [hs1]; show 0 < t0 + 500; omega)
    have hst2 : (run s1 polls).1.internalState =
        .waitForDeviceAfterStartup := by
      rw [hinv.1, hs1]
    have hfin := runOnce_wait_silent_timeout (run s1 polls).1 T
      (Or.inl hst2) hinv.2.1 (by rw [hinv.2.2.2, hs1]; exact hT)
    show getState (run (mkBLE name)
      ((t0, ([] : List Char)) :: (polls ++ [(T, [])]))).1 = State.panicked
    simp only [run, harm]
    rw [run_append polls [(T, [])] s1]
    simp only [run, hfin]
    rw [getState_panicked_iff]

/-- Witness for C7: E2E scenario B — fresh controller at time 0, two
silent mid-polls, and a poll at 5000 ms; the observable state is then
`panicked`. -/
theorem claim_C7_silent_transport_panics_at_timeout_witness :
    (∀ pre suf,
      ([(1000, ([] : List Char)), (2500, [])] : List (Nat × List Char)) =
        pre ++ suf →
      getState (run (mkBLE "BLE1") ((0, ([] : List Char)) :: pre)).1 ≠
        State.panicked) ∧
    getState
      (run (mkBLE "BLE1")
        (((0, ([] : List Char)) ::
          [(1000, ([] : List Char)), (2500, [])]) ++ [(5000, [])])).1 =
      State.panicked :=
  claim_C7_silent_transport_panics_at_timeout "BLE1" 0 5000
    [(1000, []), (2500, [])]
    (by intro p hp; fin_cases hp <;> exact ⟨by decide, rfl⟩)
    (by decide)

/-- One-step unfolding of `run`. -/
theorem run_cons (s : BLE) (now : Nat) (avail : List Char)
    (rest : List (Nat × List Char)) :
    run s ((now, avail) :: rest) =
      ((run (runOnce s now avail).1 rest).1,
        (runOnce s now avail).2.map (fun c => (now, c)) ++
          (run (runOnce s now avail).1 rest).2) := by
  rcases h : runOnce s now avail with ⟨s1, out⟩
  simp [run, h]

/-- C6 fails as stated: in `waitForDeviceAfterStartup` armed at time 0
(retry deadline 500, timeout deadline 5000) with a silent transport and
polls at every multiple of the retry interval, the command is
retransmitted at 500, 1000, …, 4500 — exactly 9 times, not
`⌊timeout / retry_interval⌋ = 10` times — because at 5000 the timeout
deadline takes priority over a tenth retransmission and the controller
panics. -/
theorem claim_C6_retry_cadence_counterexample :
    (run { mkBLE "BLE1" with
        internalState := .waitForDeviceAfterStartup
        retryTime := 500
        timeoutTime := 5000 }
      [(500, []), (1000, []), (1500, []), (2000, []), (2500, []),
       (3000, []), (3500, []), (4000, []), (4500, []), (5000, [])]).2 =
      [(500, "AT"), (1000, "AT"), (1500, "AT"), (2000, "AT"), (2500, "AT"),
       (3000, "AT"), (3500, "AT"), (4000, "AT"), (4500, "AT")] ∧
    (run { mkBLE "BLE1" with
        internalState := .waitForDeviceAfterStartup
        retryTime := 500
        timeoutTime := 5000 }
      [(500, []), (1000, []), (1500, []), (2000, []), (2500, []),
       (3000, []), (3500, []), (4000, []), (4500, []),
       (5000, [])]).1.internalState = .panicked ∧
    (run { mkBLE "BLE1" with
        internalState := .waitForDeviceAfterStartup
        retryTime := 500
        timeoutTime := 5000 }
      [(500, []), (1000, []), (1500, []), (2000, []), (2500, []),
       (3000, []), (3500, []), (4000, []), (4500, []),
       (5000, [])]).2.length ≠
      kWaitForDeviceTimeout / kRetryTimeout := by
  refine ⟨by decide, by decide, by decide⟩

/-- C6 amended: in a retry-enabled wait state armed at `t0` (retry
deadline `t0 + 500`, timeout deadline `t0 + 5000`) with a silent
transport and polls at each multiple of the retry interval, the command is
retransmitted at intervals of exactly the retry interval,
`⌊timeout / retry_interval⌋ - 1` times (so the command is transmitted
`⌊timeout / retry_interval⌋` times in total, counting the arming
transmission), before the state times out into `panicked`. -/
theorem claim_C6_retry_cadence_amended (n : String) (gn : InternalState)
    (ist : InternalState)
    (hst : ist = .waitForDeviceAfterStartup ∨
           ist = .waitForDeviceAfterReset) (t0 : Nat) :
    run ⟨n, ist, [], t0 + kRetryTimeout, t0 + kWaitForDeviceTimeout, gn⟩
        [(t0 + 500, []), (t0 + 1000, []), (t0 + 1500, []), (t0 + 2000, []),
         (t0 + 2500, []), (t0 + 3000, []), (t0 + 3500, []), (t0 + 4000, []),
         (t0 + 4500, []), (t0 + 5000, [])] =
      (⟨n, .panicked, [], t0 + 5000, t0 + kWaitForDeviceTimeout, gn⟩,
        [(t0 + 500, "AT"), (t0 + 1000, "AT"), (t0 + 1500, "AT"),
         (t0 + 2000, "AT"), (t0 + 2500, "AT"), (t0 + 3000, "AT"),
         (t0 + 3500, "AT"), (t0 + 4000, "AT"), (t0 + 4500, "AT")]) ∧
    (run ⟨n, ist, [], t0 + kRetryTimeout, t0 + kWaitForDeviceTimeout, gn⟩
        [(t0 + 500, []), (t0 + 1000, []), (t0 + 1500, []), (t0 + 2000, []),
         (t0 + 2500, []), (t0 + 3000, []), (t0 + 3500, []), (t0 + 4000, []),
         (t0 + 4500, []),
         (t0 + 5000, [])]).2.length =
      kWaitForDeviceTimeout / kRetryTimeout - 1 := by
  have hst' : ∀ rt : Nat,
      (⟨n, ist, [], rt, t0 + 5000, gn⟩ : BLE).internalState =
        .waitForDeviceAfterStartup ∨
      (⟨n, ist, [], rt, t0 + 5000, gn⟩ : BLE).internalState =
        .waitForDeviceAfterReset := fun _ => hst
  have step : ∀ rt now : Nat, 0 < rt → rt ≤ now → now < t0 + 5000 →
      runOnce ⟨n, ist, [], rt, t0 + 5000, gn⟩ now [] =
        (⟨n, ist, [], now + 500, t0 + 5000, gn⟩, ["AT"]) := by
    intro rt now h1 h2 h3
    exact (runOnce_wait_silent ⟨n, ist, [], rt, t0 + 5000, gn⟩ now
      (hst' rt) rfl h1 h3).2 h2
  have tstep : runOnce ⟨n, ist, [], t0 + 5000, t0 + 5000, gn⟩
      (t0 + 5000) [] =
        (⟨n, .panicked, [], t0 + 5000, t0 + 5000, gn⟩, []) :=
    runOnce_wait_silent_timeout ⟨n, ist, [], t0 + 5000, t0 + 5000, gn⟩
      (t0 + 5000) (hst' (t0 + 5000)) rfl (le_refl _)
  have hmain :
      run ⟨n, ist, [], t0 + kRetryTimeout, t0 + kWaitForDeviceTimeout, gn⟩
        [(t0 + 500, []), (t0 + 1000, []), (t0 + 1500, []), (t0 + 2000, []),
         (t0 + 2500, []), (t0 + 3000, []), (t0 + 3500, []), (t0 + 4000, []),
         (t0 + 4500, []), (t0 + 5000, [])] =
      (⟨n, .panicked, [], t0 + 5000, t0 + kWaitForDeviceTimeout, gn⟩,
        [(t0 + 500, "AT"), (t0 + 1000, "AT"), (t0 + 1500, "AT"),
         (t0 + 2000, "AT"), (t0 + 2500, "AT"), (t0 + 3000, "AT"),
         (t0 + 3500, "AT"), (t0 + 4000, "AT"), (t0 + 4500, "AT")]) := by
    show run ⟨n, ist, [], t0 + 500, t0 + 5000, gn⟩ _ = _
    rw [run_cons, step (t0 + 500) (t0 + 500) (by omega) (by omega) (by omega)]
    rw [run_cons, step (t0 + 500 + 500) (t0 + 1000) (by omega) (by omega)
      (by omega)]
    rw [run_cons, step (t0 + 1000 + 500) (t0 + 1500) (by omega) (by omega)
      (by omega)]
    rw [run_cons, step (t0 + 1500 + 500) (t0 + 2000) (by omega) (by omega)
      (by omega)]
    rw [run_cons, step (t0 + 2000 + 500) (t0 + 2500) (by omega) (by omega)
      (by omega)]
    rw [run_cons, step (t0 + 2500 + 500) (t0 + 3000) (by omega) (by omega)
      (by omega)]
    rw [run_cons, step (t0 + 3000 + 500) (t0 + 3500) (by omega) (by omega)
      (by omega)]
    rw [run_cons, step (t0 + 3500 + 500) (t0 + 4000) (by omega) (by omega)
      (by omega)]
    rw [run_cons, step (t0 + 4000 + 500) (t0 + 4500) (by omega) (by omega)
      (by omega)]
    rw [run_cons]
    have h45 : (⟨n, ist, [], t0 + 4500 + 500, t0 + 5000, gn⟩ : BLE) =
        ⟨n, ist, [], t0 + 5000, t0 + 5000, gn⟩ := by
      simp only [BLE.mk.injEq]
      try omega
    rw [h45, tstep]
    simp [run, kWaitForDeviceTimeout]
  refine ⟨hmain, ?_⟩
  rw [hmain]
  simp only [List.length_cons, List.length_nil, kWaitForDeviceTimeout,
    kRetryTimeout]

/-- Witness for the amended C6: the cadence realised concretely at
`t0 = 0` in `waitForDeviceAfterStartup`. -/
theorem claim_C6_retry_cadence_amended_witness :
    run ⟨"BLE1", .waitForDeviceAfterStartup, [], 0 + kRetryTimeout,
        0 + kWaitForDeviceTimeout, .startup⟩
        [(0 + 500, []), (0 + 1000, []), (0 + 1500, []), (0 + 2000, []),
         (0 + 2500, []), (0 + 3000, []), (0 + 3500, []), (0 + 4000, []),
         (0 + 4500, []), (0 + 5000, [])] =
      (⟨"BLE1", .panicked, [], 0 + 5000, 0 + kWaitForDeviceTimeout,
          .startup⟩,
        [(0 + 500, "AT"), (0 + 1000, "AT"), (0 + 1500, "AT"),
         (0 + 2000, "AT"), (0 + 2500, "AT"), (0 + 3000, "AT"),
         (0 + 3500, "AT"), (0 + 4000, "AT"), (0 + 4500, "AT")]) :=
  (claim_C6_retry_cadence_amended "BLE1" .startup .waitForDeviceAfterStartup
    (Or.inl rfl) 0).1

/-- A poll of a wait-for-device state before both deadlines only drains
the buffer. -/
theorem runOnce_wait_receiving (s : BLE) (now : Nat) (avail : List Char)
    (hst : s.internalState = .waitForDeviceAfterStartup ∨
           s.internalState = .waitForDeviceAfterReset)
    (hr : s.retryTime = 0 ∨ now < s.retryTime) (ht : now < s.timeoutTime) :
    runOnce s now avail = ({ s with rxBuffer := s.rxBuffer ++ avail }, []) := by
  rcases s with ⟨n, ist, buf, rt, tt, gn⟩
  simp only at hst hr ht
  rcases hst with h | h <;> subst h
  · simp [runOnce, handleWaitForDevice,
      receiveResponse_receiving ⟨n, .waitForDeviceAfterStartup, buf, rt, tt, gn⟩
        now avail hr ht]
  · simp [runOnce, handleWaitForDevice,
      receiveResponse_receiving ⟨n, .waitForDeviceAfterReset, buf, rt, tt, gn⟩
        now avail hr ht]

/-- A successful response in `waitForDeviceAfterStartup` arms `setName`. -/
theorem runOnce_wfdas_success (s : BLE) (now : Nat) (avail : List Char)
    (hst : s.internalState = .waitForDeviceAfterStartup)
    (hfired : (0 < s.retryTime ∧ s.retryTime ≤ now) ∨ s.timeoutTime ≤ now)
    (hbuf : s.rxBuffer ++ avail ≠ []) :
    runOnce s now avail =
      ({ s with
         rxBuffer := []
         retryTime := 0
         timeoutTime := now + kDefaultTimeout
         genericNextInternalState := .setRole
         internalState := .setName }, ["AT+NAME" ++ s.name]) := by
  rcases s with ⟨n, ist, buf, rt, tt, gn⟩
  simp only at hst hfired hbuf
  subst hst
  simp [runOnce, handleWaitForDevice,
    receiveResponse_success ⟨n, .waitForDeviceAfterStartup, buf, rt, tt, gn⟩
      now avail hfired hbuf, transitionToState, sendCommand]

/-- A successful response in `waitForDeviceAfterReset` enters
`waitingForConnection`, leaving buffer and deadlines untouched. -/
theorem runOnce_wfdar_success (s : BLE) (now : Nat) (avail : List Char)
    (hst : s.internalState = .waitForDeviceAfterReset)
    (hfired : (0 < s.retryTime ∧ s.retryTime ≤ now) ∨ s.timeoutTime ≤ now)
    (hbuf : s.rxBuffer ++ avail ≠ []) :
    runOnce s now avail =
      ({ s with
         rxBuffer := s.rxBuffer ++ avail
         internalState := .waitingForConnection }, []) := by
  rcases s with ⟨n, ist, buf, rt, tt, gn⟩
  simp only at hst hfired hbuf
  subst hst
  simp [runOnce, handleWaitForDevice,
    receiveResponse_success ⟨n, .waitForDeviceAfterReset, buf, rt, tt, gn⟩
      now avail hfired hbuf, transitionToState]

/-- A poll of a generic-command state (or `reset`) before its timeout with
the retry deadline disabled only drains the buffer. -/
theorem runOnce_generic_receiving (s : BLE) (now : Nat) (avail : List Char)
    (hst : s.internalState = .setName ∨ s.internalState = .setRole ∨
           s.internalState = .setNotification ∨ s.internalState = .reset)
    (hr : s.retryTime = 0) (ht : now < s.timeoutTime) :
    runOnce s now avail = ({ s with rxBuffer := s.rxBuffer ++ avail }, []) := by
  rcases s with ⟨n, ist, buf, rt, tt, gn⟩
  simp only at hst hr ht
  rcases hst with h | h | h | h <;> subst h
  · simp [runOnce, handleGenericCommand,
      receiveResponse_receiving ⟨n, .setName, buf, rt, tt, gn⟩
        now avail (Or.inl hr) ht]
  · simp [runOnce, handleGenericCommand,
      receiveResponse_receiving ⟨n, .setRole, buf, rt, tt, gn⟩
        now avail (Or.inl hr) ht]
  · simp [runOnce, handleGenericCommand,
      receiveResponse_receiving ⟨n, .setNotification, buf, rt, tt, gn⟩
        now avail (Or.inl hr) ht]
  · simp [runOnce, handleReset,
      receiveResponse_receiving ⟨n, .reset, buf, rt, tt, gn⟩
        now avail (Or.inl hr) ht]

/-- A successful response in a generic-command state transitions to the
recorded next state. -/
theorem runOnce_generic_success (s : BLE) (now : Nat) (avail : List Char)
    (hst : s.internalState = .setName ∨ s.internalState = .setRole ∨
           s.internalState = .setNotification)
    (hfired : (0 < s.retryTime ∧ s.retryTime ≤ now) ∨ s.timeoutTime ≤ now)
    (hbuf : s.rxBuffer ++ avail ≠ []) :
    runOnce s now avail =
      transitionToState s.genericNextInternalState now
        { s with rxBuffer := s.rxBuffer ++ avail } := by
  rcases s with ⟨n, ist, buf, rt, tt, gn⟩
  simp only at hst hfired hbuf
  rcases hst with h | h | h <;> subst h
  · simp [runOnce, handleGenericCommand,
      receiveResponse_success ⟨n, .setName, buf, rt, tt, gn⟩
        now avail hfired hbuf]
  · simp [runOnce, handleGenericCommand,
      receiveResponse_success ⟨n, .setRole, buf, rt, tt, gn⟩
        now avail hfired hbuf]
  · simp [runOnce, handleGenericCommand,
      receiveResponse_success ⟨n, .setNotification, buf, rt, tt, gn⟩
        now avail hfired hbuf]

/-- A successful response in `reset` arms `waitForDeviceAfterReset`. -/
theorem runOnce_reset_success (s : BLE) (now : Nat) (avail : List Char)
    (hst : s.internalState = .reset)
    (hfired : (0 < s.retryTime ∧ s.retryTime ≤ now) ∨ s.timeoutTime ≤ now)
    (hbuf : s.rxBuffer ++ avail ≠ []) :
    runOnce s now avail =
      ({ s with
         rxBuffer := []
         retryTime := now + kRetryTimeout
         timeoutTime := now + kWaitForDeviceTimeout
         internalState := .waitForDeviceAfterReset }, ["AT"]) := by
  rcases s with ⟨n, ist, buf, rt, tt, gn⟩
  simp only at hst hfired hbuf
  subst hst
  simp [runOnce, handleReset,
    receiveResponse_success ⟨n, .reset, buf, rt, tt, gn⟩
      now avail hfired hbuf, transitionToState, sendCommand]

/-! ## Two-poll response windows

Each lemma runs one command's response window: a delivery poll at `p`
carrying the response bytes `bs`, then a decision poll at the deadline.
The delivery may also land exactly on the deadline (`p` equal to it), in
which case the first poll decides and the second is a no-op. -/

/-- Window of `waitForDeviceAfterStartup` armed with retry deadline `R`
and timeout deadline `D`: a response delivered by `R` arms `setName`
at `R`. -/
theorem window_wfdas (n : String) (gn : InternalState) (R D p : Nat)
    (bs : List Char) (h0 : 0 < R) (hp : p ≤ R) (hRD : R < D)
    (hbs : bs ≠ []) :
    run ⟨n, .waitForDeviceAfterStartup, [], R, D, gn⟩ [(p, bs), (R, [])] =
      (⟨n, .setName, [], 0, R + kDefaultTimeout, .setRole⟩,
        [(R, "AT+NAME" ++ n)]) := by
  rcases eq_or_lt_of_le hp with he | hlt
  · subst he
    rw [run_cons, runOnce_wfdas_success
      ⟨n, .waitForDeviceAfterStartup, [], p, D, gn⟩ p bs rfl
      (Or.inl ⟨h0, le_refl p⟩) (by simpa using hbs)]
    dsimp only
    rw [run_cons, runOnce_generic_receiving
      ⟨n, .setName, [], 0, p + kDefaultTimeout, .setRole⟩ p []
      (Or.inl rfl) rfl (by show p < p + 500; omega)]
    simp [run]
  · rw [run_cons, runOnce_wait_receiving
      ⟨n, .waitForDeviceAfterStartup, [], R, D, gn⟩ p bs
      (Or.inl rfl) (Or.inr hlt) (by show p < D; omega)]
    dsimp only
    rw [run_cons, runOnce_wfdas_success
      ⟨n, .waitForDeviceAfterStartup, [] ++ bs, R, D, gn⟩ R [] rfl
      (Or.inl ⟨h0, le_refl R⟩) (by simpa using hbs)]
    simp [run]

/-- Window of `setName` armed with timeout deadline `D`: a response
delivered by `D` arms `setRole` at `D`. -/
theorem window_setName (n : String) (D p : Nat) (bs : List Char)
    (hp : p ≤ D) (hbs : bs ≠ []) :
    run ⟨n, .setName, [], 0, D, .setRole⟩ [(p, bs), (D, [])] =
      (⟨n, .setRole, [], 0, D + kDefaultTimeout, .setNotification⟩,
        [(D, "AT+ROLE0")]) := by
  rcases eq_or_lt_of_le hp with he | hlt
  · subst he
    rw [run_cons, runOnce_generic_success ⟨n, .setName, [], 0, p, .setRole⟩
      p bs (Or.inl rfl) (Or.inr (le_refl p)) (by simpa using hbs)]
    dsimp only [transitionToState, sendCommand]
    rw [run_cons, runOnce_generic_receiving
      ⟨n, .setRole, [], 0, p + kDefaultTimeout, .setNotification⟩ p []
      (Or.inr (Or.inl rfl)) rfl (by show p < p + 500; omega)]
    simp [run]
  · rw [run_cons, runOnce_generic_receiving ⟨n, .setName, [], 0, D, .setRole⟩
      p bs (Or.inl rfl) rfl hlt]
    dsimp only
    rw [run_cons, runOnce_generic_success
      ⟨n, .setName, [] ++ bs, 0, D, .setRole⟩ D [] (Or.inl rfl)
      (Or.inr (le_refl D)) (by simpa using hbs)]
    dsimp only [transitionToState, sendCommand]
    simp [run]

/-- Window of `setRole` armed with timeout deadline `D`: a response
delivered by `D` arms `setNotification` at `D`. -/
theorem window_setRole (n : String) (D p : Nat) (bs : List Char)
    (hp : p ≤ D) (hbs : bs ≠ []) :
    run ⟨n, .setRole, [], 0, D, .setNotification⟩ [(p, bs), (D, [])] =
      (⟨n, .setNotification, [], 0, D + kDefaultTimeout, .reset⟩,
        [(D, "AT+NOTI1")]) := by
  rcases eq_or_lt_of_le hp with he | hlt
  · subst he
    rw [run_cons, runOnce_generic_success
      ⟨n, .setRole, [], 0, p, .setNotification⟩
      p bs (Or.inr (Or.inl rfl)) (Or.inr (le_refl p)) (by simpa using hbs)]
    dsimp only [transitionToState, sendCommand]
    rw [run_cons, runOnce_generic_receiving
      ⟨n, .setNotification, [], 0, p + kDefaultTimeout, .reset⟩ p []
      (Or.inr (Or.inr (Or.inl rfl))) rfl (by show p < p + 500; omega)]
    simp [run]
  · rw [run_cons, runOnce_generic_receiving
      ⟨n, .setRole, [], 0, D, .setNotification⟩
      p bs (Or.inr (Or.inl rfl)) rfl hlt]
    dsimp only
    rw [run_cons, runOnce_generic_success
      ⟨n, .setRole, [] ++ bs, 0, D, .setNotification⟩ D []
      (Or.inr (Or.inl rfl)) (Or.inr (le_refl D)) (by simpa using hbs)]
    dsimp only [transitionToState, sendCommand]
    simp [run]

/-- Window of `setNotification` armed with timeout deadline `D`: a
response delivered by `D` arms `reset` at `D`. -/
theorem window_setNotification (n : String) (D p : Nat) (bs : List Char)
    (hp : p ≤ D) (hbs : bs ≠ []) :
    run ⟨n, .setNotification, [], 0, D, .reset⟩ [(p, bs), (D, [])] =
      (⟨n, .reset, [], 0, D + kDefaultTimeout, .reset⟩,
        [(D, "AT+RESET")]) := by
  rcases eq_or_lt_of_le hp with he | hlt
  · subst he
    rw [run_cons, runOnce_generic_success
      ⟨n, .setNotification, [], 0, p, .reset⟩
      p bs (Or.inr (Or.inr rfl)) (Or.inr (le_refl p)) (by simpa using hbs)]
    dsimp only [transitionToState, sendCommand]
    rw [run_cons, runOnce_generic_receiving
      ⟨n, .reset, [], 0, p + kDefaultTimeout, .reset⟩ p []
      (Or.inr (Or.inr (Or.inr rfl))) rfl (by show p < p + 500; omega)]
    simp [run]
  · rw [run_cons, runOnce_generic_receiving
      ⟨n, .setNotification, [], 0, D, .reset⟩
      p bs (Or.inr (Or.inr (Or.inl rfl))) rfl hlt]
    dsimp only
    rw [run_cons, runOnce_generic_success
      ⟨n, .setNotification, [] ++ bs, 0, D, .reset⟩ D []
      (Or.inr (Or.inr rfl)) (Or.inr (le_refl D)) (by simpa using hbs)]
    dsimp only [transitionToState, sendCommand]
    simp [run]

/-- Window of `reset` armed with timeout deadline `D`: a response
delivered by `D` arms `waitForDeviceAfterReset` at `D`. -/
theorem window_reset (n : String) (D p : Nat) (bs : List Char)
    (hp : p ≤ D) (hbs : bs ≠ []) :
    run ⟨n, .reset, [], 0, D, .reset⟩ [(p, bs), (D, [])] =
      (⟨n, .waitForDeviceAfterReset, [], D + kRetryTimeout,
          D + kWaitForDeviceTimeout, .reset⟩, [(D, "AT")]) := by
  rcases eq_or_lt_of_le hp with he | hlt
  · subst he
    rw [run_cons, runOnce_reset_success ⟨n, .reset, [], 0, p, .reset⟩
      p bs rfl (Or.inr (le_refl p)) (by simpa using hbs)]
    dsimp only
    rw [run_cons, runOnce_wait_receiving
      ⟨n, .waitForDeviceAfterReset, [], p + kRetryTimeout,
        p + kWaitForDeviceTimeout, .reset⟩ p []
      (Or.inr rfl) (Or.inr (by show p < p + 500; omega))
      (by show p < p + 5000; omega)]
    simp [run]
  · rw [run_cons, runOnce_generic_receiving ⟨n, .reset, [], 0, D, .reset⟩
      p bs (Or.inr (Or.inr (Or.inr rfl))) rfl hlt]
    dsimp only
    rw [run_cons, runOnce_reset_success ⟨n, .reset, [] ++ bs, 0, D, .reset⟩
      D [] rfl (Or.inr (le_refl D)) (by simpa using hbs)]
    simp [run]

/-- Window of `waitForDeviceAfterReset` armed with retry deadline `R` and
timeout deadline `D`: a response delivered by `R` enters
`waitingForConnection` at `R`, transmitting nothing. -/
theorem window_wfdar (n : String) (gn : InternalState) (R D p : Nat)
    (bs : List Char) (h0 : 0 < R) (hp : p ≤ R) (hRD : R < D)
    (hbs : bs ≠ []) :
    run ⟨n, .waitForDeviceAfterReset, [], R, D, gn⟩ [(p, bs), (R, [])] =
      (⟨n, .waitingForConnection, bs, R, D, gn⟩, []) := by
  rcases eq_or_lt_of_le hp with he | hlt
  · subst he
    rw [run_cons, runOnce_wfdar_success
      ⟨n, .waitForDeviceAfterReset, [], p, D, gn⟩ p bs rfl
      (Or.inl ⟨h0, le_refl p⟩) (by simpa using hbs)]
    dsimp only
    rw [run_cons]
    simp [run, runOnce]
  · rw [run_cons, runOnce_wait_receiving
      ⟨n, .waitForDeviceAfterReset, [], R, D, gn⟩ p bs
      (Or.inr rfl) (Or.inr hlt) (by show p < D; omega)]
    dsimp only
    rw [run_cons, runOnce_wfdar_success
      ⟨n, .waitForDeviceAfterReset, [] ++ bs, R, D, gn⟩ R [] rfl
      (Or.inl ⟨h0, le_refl R⟩) (by simpa using hbs)]
    simp [run]

/-- C2: for every fresh controller whose transport echoes each of the six
commands with a non-empty response delivered within that command's
retry/timeout window (here: between the command's transmission and its
500 ms deadline), the controller transmits exactly the command sequence
`AT`, `AT+NAME<name>`, `AT+ROLE0`, `AT+NOTI1`, `AT+RESET`, `AT`, ends in
`waitingForConnection` after the six successful transitions, and no
prefix of the run ever visits `panicked`. -/
theorem claim_C2_happy_path_initialization (n : String) (t0 : Nat)
    (p0 p1 p2 p3 p4 p5 : Nat) (b0 b1 b2 b3 b4 b5 : List Char)
    (_hp0l : t0 ≤ p0) (hp0 : p0 ≤ t0 + 500) (hb0 : b0 ≠ [])
    (_hp1l : t0 + 500 ≤ p1) (hp1 : p1 ≤ t0 + 1000) (hb1 : b1 ≠ [])
    (_hp2l : t0 + 1000 ≤ p2) (hp2 : p2 ≤ t0 + 1500) (hb2 : b2 ≠ [])
    (_hp3l : t0 + 1500 ≤ p3) (hp3 : p3 ≤ t0 + 2000) (hb3 : b3 ≠ [])
    (_hp4l : t0 + 2000 ≤ p4) (hp4 : p4 ≤ t0 + 2500) (hb4 : b4 ≠ [])
    (_hp5l : t0 + 2500 ≤ p5) (hp5 : p5 ≤ t0 + 3000) (hb5 : b5 ≠ []) :
    (run (mkBLE n)
        (happySchedule t0 p0 p1 p2 p3 p4 p5 b0 b1 b2 b3 b4 b5)).1.internalState =
      .waitingForConnection ∧
    (run (mkBLE n)
        (happySchedule t0 p0 p1 p2 p3 p4 p5 b0 b1 b2 b3 b4 b5)).2 =
      [(t0, "AT"), (t0 + 500, "AT+NAME" ++ n), (t0 + 1000, "AT+ROLE0"),
       (t0 + 1500, "AT+NOTI1"), (t0 + 2000, "AT+RESET"), (t0 + 2500, "AT")] ∧
    (∀ pre suf,
      happySchedule t0 p0 p1 p2 p3 p4 p5 b0 b1 b2 b3 b4 b5 = pre ++ suf →
      (run (mkBLE n) pre).1.internalState ≠ .panicked) := by
  have harm : runOnce (mkBLE n) t0 [] =
      (⟨n, .waitForDeviceAfterStartup, [], t0 + 500, t0 + 5000,
        .startup⟩, ["AT"]) := rfl
  have w1 : run ⟨n, .waitForDeviceAfterStartup, [], t0 + 500, t0 + 5000,
        .startup⟩ [(p0, b0), (t0 + 500, [])] =
      (⟨n, .setName, [], 0, t0 + 1000, .setRole⟩,
        [(t0 + 500, "AT+NAME" ++ n)]) := by
    have h := window_wfdas n .startup (t0 + 500) (t0 + 5000) p0 b0
      (by omega) hp0 (by omega) hb0
    have e : (t0 + 500) + kDefaultTimeout = t0 + 1000 := by
      show t0 + 500 + 500 = t0 + 1000; omega
    rw [e] at h
    exact h
  have w2 : run ⟨n, .setName, [], 0, t0 + 1000, .setRole⟩
        [(p1, b1), (t0 + 1000, [])] =
      (⟨n, .setRole, [], 0, t0 + 1500, .setNotification⟩,
        [(t0 + 1000, "AT+ROLE0")]) := by
    have h := window_setName n (t0 + 1000) p1 b1 hp1 hb1
    have e : (t0 + 1000) + kDefaultTimeout = t0 + 1500 := by
      show t0 + 1000 + 500 = t0 + 1500; omega
    rw [e] at h
    exact h
  have w3 : run ⟨n, .setRole, [], 0, t0 + 1500, .setNotification⟩
        [(p2, b2), (t0 + 1500, [])] =
      (⟨n, .setNotification, [], 0, t0 + 2000, .reset⟩,
        [(t0 + 1500, "AT+NOTI1")]) := by
    have h := window_setRole n (t0 + 1500) p2 b2 hp2 hb2
    have e : (t0 + 1500) + kDefaultTimeout = t0 + 2000 := by
      show t0 + 1500 + 500 = t0 + 2000; omega
    rw [e] at h
    exact h
  have w4 : run ⟨n, .setNotification, [], 0, t0 + 2000, .reset⟩
        [(p3, b3), (t0 + 2000, [])] =
      (⟨n, .reset, [], 0, t0 + 2500, .reset⟩,
        [(t0 + 2000, "AT+RESET")]) := by
    have h := window_setNotification n (t0 + 2000) p3 b3 hp3 hb3
    have e : (t0 + 2000) + kDefaultTimeout = t0 + 2500 := by
      show t0 + 2000 + 500 = t0 + 2500; omega
    rw [e] at h
    exact h
  have w5 : run ⟨n, .reset, [], 0, t0 + 2500, .reset⟩
        [(p4, b4), (t0 + 2500, [])] =
      (⟨n, .waitForDeviceAfterReset, [], t0 + 3000, t0 + 7500, .reset⟩,
        [(t0 + 2500, "AT")]) := by
    have h := window_reset n (t0 + 2500) p4 b4 hp4 hb4
    have e1 : (t0 + 2500) + kRetryTimeout = t0 + 3000 := by
      show t0 + 2500 + 500 = t0 + 3000; omega
    have e2 : (t0 + 2500) + kWaitForDeviceTimeout = t0 + 7500 := by
      show t0 + 2500 + 5000 = t0 + 7500; omega
    rw [e1, e2] at h
    exact h
  have w6 : run ⟨n, .waitForDeviceAfterReset, [], t0 + 3000, t0 + 7500,
        .reset⟩ [(p5, b5), (t0 + 3000, [])] =
      (⟨n, .waitingForConnection, b5, t0 + 3000, t0 + 7500, .reset⟩,
        []) :=
    window_wfdar n .reset (t0 + 3000) (t0 + 7500) p5 b5
      (by omega) hp5 (by omega) hb5
  have hrun : run (mkBLE n)
        (happySchedule t0 p0 p1 p2 p3 p4 p5 b0 b1 b2 b3 b4 b5) =
      (⟨n, .waitingForConnection, b5, t0 + 3000, t0 + 7500, .reset⟩,
        [(t0, "AT"), (t0 + 500, "AT+NAME" ++ n), (t0 + 1000, "AT+ROLE0"),
         (t0 + 1500, "AT+NOTI1"), (t0 + 2000, "AT+RESET"),
         (t0 + 2500, "AT")]) := by
    rw [happySchedule, run_cons, harm]
    dsimp only
    simp only [run_append]
    rw [w1]
    dsimp only
    rw [w2]
    dsimp only
    rw [w3]
    dsimp only
    rw [w4]
    dsimp only
    rw [w5]
    dsimp only
    rw [w6]
    simp
  refine ⟨by rw [hrun], by rw [hrun], ?_⟩
  intro pre suf heq hcontra
  have h1 := hrun
  rw [heq] at h1
  have h2 : (run (mkBLE n) (pre ++ suf)).1.internalState =
      .waitingForConnection := by rw [h1]
  rw [run_append pre suf (mkBLE n)] at h2
  dsimp only at h2
  rw [run_panicked (run (mkBLE n) pre).1 hcontra suf] at h2
  dsimp only at h2
  rw [hcontra] at h2
  exact absurd h2 (by simp)

/-- Witness for C2: E2E scenario A — device name `BLE1`, each response
(`OK`) delivered 10 ms after its command; the six expected transmissions
occur and the controller ends waiting for a connection. -/
theorem claim_C2_happy_path_initialization_witness :
    (run (mkBLE "BLE1")
        (happySchedule 0 10 510 1010 1510 2010 2510
          ['O', 'K'] ['O', 'K'] ['O', 'K'] ['O', 'K'] ['O', 'K']
          ['O', 'K'])).1.internalState = .waitingForConnection ∧
    (run (mkBLE "BLE1")
        (happySchedule 0 10 510 1010 1510 2010 2510
          ['O', 'K'] ['O', 'K'] ['O', 'K'] ['O', 'K'] ['O', 'K']
          ['O', 'K'])).2 =
      [(0, "AT"), (500, "AT+NAMEBLE1"), (1000, "AT+ROLE0"),
       (1500, "AT+NOTI1"), (2000, "AT+RESET"), (2500, "AT")] := by
  have h := claim_C2_happy_path_initialization "BLE1" 0
    10 510 1010 1510 2010 2510
    ['O', 'K'] ['O', 'K'] ['O', 'K'] ['O', 'K'] ['O', 'K'] ['O', 'K']
    (by omega) (by omega) (by decide)
    (by omega) (by omega) (by decide)
    (by omega) (by omega) (by decide)
    (by omega) (by omega) (by decide)
    (by omega) (by omega) (by decide)
    (by omega) (by omega) (by decide)
  exact ⟨h.1, by rw [h.2.1]; decide⟩

end MHGroveBLE
